import Mathlib

/-!
# Verification of the S3Payments adapter base layer

Shallow embedding of `modules/s3/s3payments/base.py`: the audit-log writer
(`S3PaymentLog.write`), the reference check (`verify_reference`), the HTTP
utility (`http` / `_http_opener`) and the subscription confirmation workflow
(`S3Payments.confirm_subscription`), together with theorems about their
behaviour.

Python truthiness of optional strings (None or "" are falsy) is modelled by
`optStrTruthy`; `datetime` values are modelled as natural numbers; database
record rows are modelled as structures; the network and the JSON codec are
modelled as explicit parameters (an `OpenResult` describing what
`opener.open` does, and a parse function for `json.load`).
-/

/-- Python truthiness for an optional string: `None` and `""` are falsy. -/
def optStrTruthy : Option String → Bool
  | none => false
  | some s => !s.isEmpty

/-- Python truthiness for an optional integer (record id): `None` and `0` are falsy. -/
def optNatTruthy : Option Nat → Bool
  | none => false
  | some n => n != 0

/-- `sub` occurs as a contiguous substring of `s`. -/
def containsSub (s sub : String) : Prop :=
  ∃ a b, s = a ++ sub ++ b

/-! ## S3PaymentLog (AuditLog) -/

/-- One row of the `fin_payment_log` table, as inserted by `S3PaymentLog.write`. -/
structure LogEntry where
  date : Nat
  service_id : Nat
  action : Option String
  result : Option String
  reason : Option String
  deriving DecidableEq, Repr

/-- The two sinks the log writer touches: the `fin_payment_log` table
(primary store) and `current.log.error` (secondary file log). -/
structure LogState where
  entries : List LogEntry
  fileLog : List String
  deriving DecidableEq, Repr

/-- The message built for the secondary sink:
`"'%s' failed [%s]" % (action, reason)` when `reason` is truthy,
otherwise `"'%s' failed" % action`. -/
def failMsg (action : String) (reason : Option String) : String :=
  if optStrTruthy reason then
    "'" ++ action ++ "' failed [" ++ reason.getD "" ++ "]"
  else
    "'" ++ action ++ "' failed"

/-- `S3PaymentLog.write(action, result, reason)`: no-op when `action` or
`result` is falsy; otherwise inserts a `fin_payment_log` row, and for
`ERROR`/`FATAL` results additionally emits
`"Payment Service #%s: %s" % (service_id, msg)` to the file log. -/
def S3PaymentLog.write (service_id : Nat) (now : Nat)
    (action result reason : Option String) (st : LogState) : LogState :=
  if !optStrTruthy action || !optStrTruthy result then st
  else
    let st1 : LogState :=
      { st with entries := st.entries ++ [⟨now, service_id, action, result, reason⟩] }
    if result = some "ERROR" ∨ result = some "FATAL" then
      { st1 with fileLog := st1.fileLog ++
          ["Payment Service #" ++ toString service_id ++ ": " ++ failMsg (action.getD "") reason] }
    else st1

/-! ## verify_reference -/

/-- The parts of a `fin_subscription` row used by this layer. -/
structure SubRecord where
  id : Nat
  service_id : Option Nat
  refno : Option String
  deriving DecidableEq, Repr

/-- `S3PaymentService.verify_reference(r)`: false when the record is absent
or its `refno` is falsy; otherwise compares `r.get_vars.get("subscription_id")`
with the stored `refno` (Python `==`, where `None == s` is false). -/
def verify_reference (record : Option SubRecord)
    (get_vars : String → Option String) : Bool :=
  match record with
  | none => false
  | some rec =>
    if !optStrTruthy rec.refno then false
    else get_vars "subscription_id" = rec.refno

/-! ## S3PaymentService: HTTP utility -/

/-- The fields of a `fin_payment_service` row stored by the
`S3PaymentService` constructor. -/
structure ServiceConfig where
  id : Nat
  base_url : Option String
  use_proxy : Bool
  proxy : Option String
  username : Option String
  password : Option String
  token_type : Option String
  access_token : Option String
  token_expiry_date : Option Nat
  deriving DecidableEq, Repr

/-- The `auth` argument of `http()` / `_http_opener()`:
`False`, `"Basic"` or `"Token"`. -/
inductive AuthMode where
  | noAuth
  | basic
  | token
  deriving DecidableEq, Repr

/-- Outcome of the adapter's `get_access_token()` call: the base class raises
`NotImplementedError`; per its contract a concrete implementation returns the
new token, or `None` on failure. -/
inductive FetchResult where
  | notImplemented
  | fetched (tok : Option String)
  deriving DecidableEq, Repr

/-- The observable configuration of the `OpenerDirector` built by
`_http_opener`: headers added to the opener, how many times
`get_access_token` was invoked, and which handlers were installed. -/
structure OpenerConfig where
  addheaders : List (String × String)
  refreshCalls : Nat
  proxyHandler : Bool
  auth401Handler : Bool
  deriving DecidableEq, Repr

/-- The effective token type: `row.token_type or "Bearer"`. -/
def tokenTypeStr (cfg : ServiceConfig) : String :=
  if optStrTruthy cfg.token_type then cfg.token_type.getD "" else "Bearer"

/-- The refresh condition of the `Token` branch of `_http_opener`:
`not token or expiry_date and expiry_date <= current.request.utcnow` —
refresh when the cached token is falsy, or when a (truthy) expiry date is
at or before the current request time. -/
def needRefresh (cfg : ServiceConfig) (now : Nat) : Bool :=
  !optStrTruthy cfg.access_token ||
    (match cfg.token_expiry_date with
     | some d => decide (d ≤ now)
     | none => false)

/-- The token held by the `Token` branch after the conditional refresh,
paired with the number of `get_access_token()` calls made: when a refresh is
needed, one call is made (a `NotImplementedError` is caught and yields no
token); otherwise the cached token stands with no call. -/
def tokenAfterRefresh (cfg : ServiceConfig) (now : Nat)
    (fetch : FetchResult) : Option String × Nat :=
  if needRefresh cfg now then
    (match fetch with
     | .notImplemented => none
     | .fetched t => t, 1)
  else (cfg.access_token, 0)

/-- `_http_opener(req, headers, auth)`: proxy handler when configured and
enabled; for `Basic`, an Authorization header from username/password
(`b64` models the `base64.b64encode` library call); for `Token`, a refresh
per `tokenAfterRefresh`, then an Authorization header whenever a truthy
token is at hand; a 401 fallback handler whenever `auth` is truthy and both
username and password are set. -/
def http_opener (cfg : ServiceConfig) (now : Nat) (b64 : String → String)
    (headers : List (String × String)) (auth : AuthMode)
    (fetch : FetchResult) : OpenerConfig :=
  let proxyH := cfg.use_proxy && optStrTruthy cfg.proxy
  let authPair : List (String × String) × Nat :=
    match auth with
    | .basic =>
      if optStrTruthy cfg.username && optStrTruthy cfg.password then
        ([("Authorization",
           "Basic " ++ b64 (cfg.username.getD "" ++ ":" ++ cfg.password.getD ""))], 0)
      else ([], 0)
    | .token =>
      let tokenCalls := tokenAfterRefresh cfg now fetch
      ((if optStrTruthy tokenCalls.1 then
          [("Authorization", tokenTypeStr cfg ++ " " ++ tokenCalls.1.getD "")]
        else []),
       tokenCalls.2)
    | .noAuth => ([], 0)
  let auth401 := (auth != .noAuth) &&
    optStrTruthy cfg.username && optStrTruthy cfg.password
  ⟨headers ++ authPair.1, authPair.2, proxyH, auth401⟩

/-- The `encode` / `decode` arguments of `http()`. -/
inductive ContentMode where
  | json
  | text
  | bytes
  deriving DecidableEq, Repr

/-- What `opener.open(req, data)` does: an `HTTPError` with a status code and
a response body, a `URLError` with an optional reason, any other exception
with its description, or a response with a status code and a body. -/
inductive OpenResult where
  | httpError (code : Nat) (body : String)
  | urlError (reason : Option String)
  | otherError (desc : String)
  | success (code : Nat) (body : String)
  deriving DecidableEq, Repr

/-- The `(output, status, error)` triple returned by `http()`. Outputs of all
three decode modes (parsed JSON, text, raw stream) are modelled as strings. -/
structure HttpOutcome where
  output : Option String
  status : Option Nat
  error : Option String
  deriving DecidableEq, Repr

/-- The observable effects of one `http()` call: its return triple, the
opener that was built (none when the call bailed out before building one),
the request URL, the request body and the headers set on the request itself
(Content-Type / Accept), and how many network calls (`opener.open`) were
issued. -/
structure HttpCall where
  outcome : HttpOutcome
  opener : Option OpenerConfig
  url : Option String
  reqData : Option String
  reqHeaders : List (String × String)
  netCalls : Nat
  deriving DecidableEq, Repr

/-- Request body handling of `http()`: GET requests never send a body; for
other methods a truthy `data` is serialized (the serialized form is modelled
as the string itself) and the matching Content-Type header is set. -/
def requestData (method : String) (data : Option String)
    (encode : ContentMode) : Option String × List (String × String) :=
  if method = "GET" then (none, [])
  else if optStrTruthy data then
    match encode with
    | .json => (data, [("Content-Type", "application/json")])
    | .text => (data, [("Content-Type", "text/plain; charset=UTF-8")])
    | .bytes => (data, [("Content-Type", "application/octet-stream")])
  else (none, [])

/-- The Accept header set by `http()` according to `decode`. -/
def acceptHeader (decode : ContentMode) : String × String :=
  match decode with
  | .json => ("Accept", "application/json")
  | .text => ("Accept", "*/*")
  | .bytes => ("Accept", "*/*")

/-- URL construction of `http()`: strip trailing `/` from the base URL, join
a truthy `path` (stripped of leading `/`), append URL-encoded `args`
(`urlencode` modelled as plain `k=v` pairs joined by `&`). -/
def buildUrl (base : String) (path : Option String)
    (args : List (String × String)) : String :=
  let url := base.dropRightWhile (· = '/')
  let url :=
    if optStrTruthy path then url ++ "/" ++ (path.getD "").dropWhile (· = '/')
    else url
  if args.isEmpty then url
  else url ++ "?" ++ String.intercalate "&" (args.map (fun p => p.1 ++ "=" ++ p.2))

/-- The try/except body of `http()` around `opener.open`: `HTTPError` gives
status plus body-as-error, `URLError` gives its reason (defaulting to
`"Unknown network error"` when falsy), any other exception gives its
description, and a response gives the status code plus the decoded body
(`parseJson` models `json.load`; a parse failure becomes the error). -/
def decodeOutcome (decode : ContentMode)
    (parseJson : String → Except String String) (openRes : OpenResult) : HttpOutcome :=
  match openRes with
  | .httpError c body => ⟨none, some c, some body⟩
  | .urlError r =>
    ⟨none, none, some (if optStrTruthy r then r.getD "" else "Unknown network error")⟩
  | .otherError d => ⟨none, none, some d⟩
  | .success c body =>
    match decode with
    | .json =>
      match parseJson body with
      | .ok v => ⟨some v, some c, none⟩
      | .error e => ⟨none, some c, some e⟩
    | .text => ⟨some body, some c, none⟩
    | .bytes => ⟨some body, some c, none⟩

/-- `S3PaymentService.http(...)`: bail out with `"No base URL set"` when the
base URL is falsy; otherwise build the URL, the request data and the opener,
run the request (`openRes` models what the network does for it) and map the
result through `decodeOutcome`. -/
def http (cfg : ServiceConfig) (now : Nat) (b64 : String → String)
    (method : String) (path : Option String) (args : List (String × String))
    (data : Option String) (headers : List (String × String)) (auth : AuthMode)
    (encode decode : ContentMode) (fetch : FetchResult) (openRes : OpenResult)
    (parseJson : String → Except String String) : HttpCall :=
  if !optStrTruthy cfg.base_url then
    ⟨⟨none, none, some "No base URL set"⟩, none, none, none, [], 0⟩
  else
    let url := buildUrl (cfg.base_url.getD "") path args
    let rd := requestData method data encode
    let opener := http_opener cfg now b64 headers auth fetch
    ⟨decodeOutcome decode parseJson openRes, some opener, some url,
     rd.1, rd.2 ++ [acceptHeader decode], 1⟩

/-! ## S3Payments.confirm_subscription (SubscriptionWorkflow) -/

/-- The notice slots of `current.response` set by the workflow. -/
structure ResponseState where
  confirmation : Option String
  warning : Option String
  error : Option String
  deriving DecidableEq, Repr

/-- Result of a workflow method: `abort c m` models `r.error(c, m)` (which
raises), `done resp nextHttp` models a normal completion that set the given
response notices, switched `r.http` to `nextHttp` and redirects next. -/
inductive ConfirmResult where
  | abort (code : Nat) (msg : String)
  | done (resp : ResponseState) (nextHttp : String)
  deriving DecidableEq, Repr

/-- The behaviour of the adapter resolved for the record's service: the
result of `adapter.verify_reference(r)` and of
`adapter.check_subscription(record.id)` (`None` on error). -/
structure AdapterBehavior where
  verify : Bool
  status : Option String
  deriving DecidableEq, Repr

/-- The status dispatch of `confirm_subscription`: `"ACTIVE"` sets a
confirmation, `"APPROVED"` is a pass (TODO branch in the source), any other
truthy status sets a warning, a falsy status sets an error. -/
def confirmStatusResponse (status : Option String) : ResponseState :=
  if status = some "ACTIVE" then ⟨some "Subscription activated", none, none⟩
  else if status = some "APPROVED" then ⟨none, none, none⟩
  else if optStrTruthy status then ⟨none, some "Subscription inactive", none⟩
  else ⟨none, none, some "Could not verify subscription status"⟩

/-- `S3Payments.confirm_subscription(r)`: 405-abort when the record or its
`service_id` is falsy, when the adapter cannot be resolved (`adapter = none`
models a `KeyError`/`ValueError` from `S3PaymentService.adapter`), or when
`verify_reference` fails; otherwise dispatch on `check_subscription`'s
status, set `r.http = "POST"` and complete. -/
def confirm_subscription (record : Option SubRecord)
    (adapter : Option AdapterBehavior) : ConfirmResult :=
  match record with
  | none => .abort 405 "Invalid record"
  | some rec =>
    if !optNatTruthy rec.service_id then .abort 405 "Invalid record"
    else
      match adapter with
      | none => .abort 405 "Invalid payment service"
      | some a =>
        if !a.verify then .abort 405 "Invalid reference"
        else .done (confirmStatusResponse a.status) "POST"

/-! ## Helper lemmas -/

theorem containsSub_of_append (a sub b : String) : containsSub (a ++ sub ++ b) sub :=
  ⟨a, b, rfl⟩

theorem containsSub_appendL (t : String) {s sub : String} (h : containsSub s sub) :
    containsSub (t ++ s) sub := by
  obtain ⟨a, b, rfl⟩ := h
  exact ⟨t ++ a, b, by simp [String.append_assoc]⟩

theorem containsSub_appendR (t : String) {s sub : String} (h : containsSub s sub) :
    containsSub (s ++ t) sub := by
  obtain ⟨a, b, rfl⟩ := h
  exact ⟨a, b ++ t, by simp [String.append_assoc]⟩

theorem containsSub_empty (s : String) : containsSub s "" :=
  ⟨s, "", by simp⟩

/-! ## Claims about the audit log -/

/-- C8: a call to `S3PaymentLog.write` with an empty/absent `action` or an
empty/absent `result` is a no-op: no entry is persisted and the secondary
sink is untouched. -/
theorem log_write_noop (service_id now : Nat) (action result reason : Option String)
    (st : LogState)
    (h : optStrTruthy action = false ∨ optStrTruthy result = false) :
    S3PaymentLog.write service_id now action result reason st = st := by
  unfold S3PaymentLog.write
  rcases h with h | h <;> simp [h]

/-- C8 witness: writing with an empty action changes nothing. -/
theorem log_write_noop_witness :
    S3PaymentLog.write 7 100 (some "") (some "ERROR") (some "boom") ⟨[], []⟩ = ⟨[], []⟩ :=
  log_write_noop 7 100 (some "") (some "ERROR") (some "boom") ⟨[], []⟩ (Or.inl rfl)

/-- C4: for a non-empty action and result, an `ERROR`/`FATAL` result persists
one `LogEntry` and emits one secondary-sink line containing the service id,
the action, and the reason; an `INFO`/`SUCCESS`/`WARNING` result persists one
`LogEntry` and leaves the secondary sink untouched. -/
theorem log_write_severity_routing (service_id now : Nat) (action result : String)
    (reason : Option String) (st : LogState)
    (ha : action ≠ "") (hr : result ≠ "") :
    (result = "ERROR" ∨ result = "FATAL" →
      ∃ line,
        S3PaymentLog.write service_id now (some action) (some result) reason st
          = ⟨st.entries ++ [⟨now, service_id, some action, some result, reason⟩],
             st.fileLog ++ [line]⟩ ∧
        containsSub line (toString service_id) ∧
        containsSub line action ∧
        containsSub line (reason.getD "")) ∧
    (result = "INFO" ∨ result = "SUCCESS" ∨ result = "WARNING" →
      S3PaymentLog.write service_id now (some action) (some result) reason st
        = ⟨st.entries ++ [⟨now, service_id, some action, some result, reason⟩],
           st.fileLog⟩) := by
  have ha' : optStrTruthy (some action) = true := by
    simp [optStrTruthy, Bool.eq_false_iff, ne_eq, String.isEmpty_iff, ha]
  have hr' : optStrTruthy (some result) = true := by
    simp [optStrTruthy, Bool.eq_false_iff, ne_eq, String.isEmpty_iff, hr]
  constructor
  · intro h
    refine ⟨"Payment Service #" ++ toString service_id ++ ": " ++ failMsg action reason,
      ?_, ?_, ?_, ?_⟩
    · unfold S3PaymentLog.write
      rcases h with h | h <;> subst h <;> simp [ha', hr']
    · exact containsSub_appendR _ (containsSub_of_append _ _ _)
    · apply containsSub_appendL
      unfold failMsg
      by_cases h2 : optStrTruthy reason = true
      · simp only [h2, if_true]
        exact containsSub_appendR _ (containsSub_appendR _ (containsSub_of_append _ _ _))
      · simp only [h2, Bool.false_eq_true, if_false]
        exact containsSub_of_append _ _ _
    · by_cases h2 : optStrTruthy reason = true
      · apply containsSub_appendL
        unfold failMsg
        simp only [h2, if_true]
        exact containsSub_of_append _ _ _
      · have hget : reason.getD "" = "" := by
          cases reason with
          | none => rfl
          | some s =>
            simp [optStrTruthy, String.isEmpty_iff] at h2
            simp [h2]
        rw [hget]
        exact containsSub_empty _
  · intro h
    unfold S3PaymentLog.write
    rcases h with h | h | h <;> subst h <;> simp [ha', hr']

/-- C4 witness: an ERROR write persists the entry and emits a line with the
service id, action and reason in it. -/
theorem log_write_severity_routing_witness :
    ∃ line,
      S3PaymentLog.write 7 100 (some "reg") (some "ERROR") (some "boom") ⟨[], []⟩
        = ⟨[⟨100, 7, some "reg", some "ERROR", some "boom"⟩], [line]⟩ ∧
      containsSub line (toString 7) ∧
      containsSub line "reg" ∧
      containsSub line ((some "boom").getD "") :=
  (log_write_severity_routing 7 100 "reg" "ERROR" (some "boom") ⟨[], []⟩
    (by decide) (by decide)).1 (Or.inl rfl)

/-! ## Claims about verify_reference -/

/-- C5: the default `verify_reference` is false when the record is absent or
has no stored reference number, false when the `subscription_id` query
parameter is absent, and true only when the supplied parameter is exactly
the stored (non-empty) reference number. -/
theorem verify_reference_spec (record : Option SubRecord)
    (get_vars : String → Option String) :
    (record = none → verify_reference record get_vars = false) ∧
    (∀ rec, record = some rec → optStrTruthy rec.refno = false →
      verify_reference record get_vars = false) ∧
    (get_vars "subscription_id" = none → verify_reference record get_vars = false) ∧
    (verify_reference record get_vars = true →
      ∃ rec refno, record = some rec ∧ rec.refno = some refno ∧ refno ≠ "" ∧
        get_vars "subscription_id" = some refno) := by
  refine ⟨?_, ?_, ?_, ?_⟩
  · intro h; subst h; rfl
  · intro rec h hfalsy; subst h
    simp [verify_reference, hfalsy]
  · intro hq
    cases record with
    | none => rfl
    | some rec =>
      unfold verify_reference
      by_cases hfalsy : optStrTruthy rec.refno = true
      · cases hrn : rec.refno with
        | none => simp [optStrTruthy, hrn] at hfalsy
        | some s => simp [hfalsy, hq, hrn]
      · simp at hfalsy; simp [hfalsy]
  · intro htrue
    cases record with
    | none => simp [verify_reference] at htrue
    | some rec =>
      unfold verify_reference at htrue
      by_cases hfalsy : optStrTruthy rec.refno = true
      · cases hrn : rec.refno with
        | none => simp [optStrTruthy, hrn] at hfalsy
        | some s =>
          refine ⟨rec, s, rfl, hrn, ?_, ?_⟩
          · intro hs
            rw [hs] at hrn
            rw [hrn] at hfalsy
            exact absurd hfalsy (by decide)
          · simp [hfalsy, hrn] at htrue
            exact htrue.2
      · simp at hfalsy; simp [hfalsy] at htrue

/-- C5 witness: a record with reference "R" and an absent query parameter
fails the check. -/
theorem verify_reference_spec_witness :
    verify_reference (some ⟨1, some 2, some "R"⟩) (fun _ => none) = false :=
  (verify_reference_spec (some ⟨1, some 2, some "R"⟩) (fun _ => none)).2.2.1 rfl

/-! ## Claims about confirm_subscription -/

/-- C1 counterexample: `"APPROVED"` is a non-empty status other than
`"ACTIVE"`, yet a confirm call that passes the reference check sets no
warning (nor any other notice) for it — refuting the claimed mapping that
every non-empty status other than `"ACTIVE"` sets a warning outcome. -/
theorem confirm_approved_counterexample :
    optStrTruthy (some "APPROVED") = true ∧
    some "APPROVED" ≠ some "ACTIVE" ∧
    confirm_subscription (some ⟨1, some 2, some "R"⟩) (some ⟨true, some "APPROVED"⟩)
      = .done ⟨none, none, none⟩ "POST" := by
  decide

/-- C1 (amended): for a confirm call whose reference check passes, the
`check_subscription` status maps to exactly one outcome: `"ACTIVE"` sets a
confirmation, an empty or absent status sets an error, any other non-empty
status except `"APPROVED"` sets a warning, and `"APPROVED"` sets no
outcome at all. -/
theorem confirm_status_outcome_mapping (rec : SubRecord) (a : AdapterBehavior)
    (hsvc : optNatTruthy rec.service_id = true) (hver : a.verify = true) :
    confirm_subscription (some rec) (some a)
      = .done (confirmStatusResponse a.status) "POST" ∧
    (a.status = some "ACTIVE" →
      confirmStatusResponse a.status = ⟨some "Subscription activated", none, none⟩) ∧
    (optStrTruthy a.status = false →
      confirmStatusResponse a.status
        = ⟨none, none, some "Could not verify subscription status"⟩) ∧
    (optStrTruthy a.status = true → a.status ≠ some "ACTIVE" →
      a.status ≠ some "APPROVED" →
      confirmStatusResponse a.status = ⟨none, some "Subscription inactive", none⟩) ∧
    (a.status = some "APPROVED" → confirmStatusResponse a.status = ⟨none, none, none⟩) := by
  refine ⟨?_, ?_, ?_, ?_, ?_⟩
  · simp [confirm_subscription, hsvc, hver]
  · intro h; simp [confirmStatusResponse, h]
  · intro h
    unfold confirmStatusResponse
    have hact : ¬ a.status = some "ACTIVE" := by
      intro hs; rw [hs] at h; exact absurd h (by decide)
    have happ : ¬ a.status = some "APPROVED" := by
      intro hs; rw [hs] at h; exact absurd h (by decide)
    simp [hact, happ, h]
  · intro htr hact happ
    unfold confirmStatusResponse
    simp [hact, happ, htr]
  · intro h; simp [confirmStatusResponse, h]

/-- C1 witness: a passing confirm call with status `"PENDING"` completes with
the mapped response. -/
theorem confirm_status_outcome_mapping_witness :
    confirm_subscription (some ⟨1, some 2, some "R"⟩) (some ⟨true, some "PENDING"⟩)
      = .done (confirmStatusResponse (some "PENDING")) "POST" :=
  (confirm_status_outcome_mapping ⟨1, some 2, some "R"⟩ ⟨true, some "PENDING"⟩
    (by decide) rfl).1

/-- C9: a confirm call whose reference check passes and whose
`check_subscription` status is exactly `"APPROVED"` sets no confirmation,
no warning and no error, and still completes normally (request switched to
POST, redirect set). -/
theorem confirm_approved_noop (rec : SubRecord) (a : AdapterBehavior)
    (hsvc : optNatTruthy rec.service_id = true) (hver : a.verify = true)
    (hst : a.status = some "APPROVED") :
    confirm_subscription (some rec) (some a) = .done ⟨none, none, none⟩ "POST" := by
  simp [confirm_subscription, hsvc, hver, confirmStatusResponse, hst]

/-- C9 witness: concrete APPROVED confirm call completes with no notices. -/
theorem confirm_approved_noop_witness :
    confirm_subscription (some ⟨3, some 5, some "X"⟩) (some ⟨true, some "APPROVED"⟩)
      = .done ⟨none, none, none⟩ "POST" :=
  confirm_approved_noop ⟨3, some 5, some "X"⟩ ⟨true, some "APPROVED"⟩
    (by decide) rfl rfl

/-! ## Claims about http() -/

/-- C6: an `http()` call on a service whose base URL is empty or absent
returns `(None, None, "No base URL set")` immediately — no opener is built,
no URL is formed, and no network call is issued — regardless of method,
path or any other argument. -/
theorem http_no_base_url (cfg : ServiceConfig) (now : Nat) (b64 : String → String)
    (method : String) (path : Option String) (args : List (String × String))
    (data : Option String) (headers : List (String × String)) (auth : AuthMode)
    (encode decode : ContentMode) (fetch : FetchResult) (openRes : OpenResult)
    (parseJson : String → Except String String)
    (h : optStrTruthy cfg.base_url = false) :
    http cfg now b64 method path args data headers auth encode decode fetch
        openRes parseJson
      = ⟨⟨none, none, some "No base URL set"⟩, none, none, none, [], 0⟩ := by
  unfold http
  simp [h]

/-- C6 witness: a GET on `/ping` with no base URL configured. -/
theorem http_no_base_url_witness :
    http ⟨1, none, false, none, none, none, none, none, none⟩ 0 id "GET"
        (some "/ping") [] none [] .noAuth .json .json (.fetched none)
        (.success 200 "{}") Except.ok
      = ⟨⟨none, none, some "No base URL set"⟩, none, none, none, [], 0⟩ :=
  http_no_base_url ⟨1, none, false, none, none, none, none, none, none⟩ 0 id "GET"
    (some "/ping") [] none [] .noAuth .json .json (.fetched none)
    (.success 200 "{}") Except.ok rfl

/-- C7: with a configured base URL, `http()` returns failures as values in
the error slot: an HTTP-status error yields the status code and the response
body as the error, a network error yields the underlying reason (defaulting
to "Unknown network error" when falsy), any other failure yields its raw
description; exactly one of output/error is populated, and the status slot
is populated whenever a response was received, even on HTTP-status error. -/
theorem http_error_taxonomy (cfg : ServiceConfig) (now : Nat) (b64 : String → String)
    (method : String) (path : Option String) (args : List (String × String))
    (data : Option String) (headers : List (String × String)) (auth : AuthMode)
    (encode decode : ContentMode) (fetch : FetchResult) (openRes : OpenResult)
    (parseJson : String → Except String String) (call : HttpCall)
    (hbase : optStrTruthy cfg.base_url = true)
    (hcall : call = http cfg now b64 method path args data headers auth encode
        decode fetch openRes parseJson) :
    call.outcome = decodeOutcome decode parseJson openRes ∧
    call.netCalls = 1 ∧
    (∀ c body, decodeOutcome decode parseJson (.httpError c body)
      = ⟨none, some c, some body⟩) ∧
    (∀ r, decodeOutcome decode parseJson (.urlError r)
      = ⟨none, none,
         some (if optStrTruthy r then r.getD "" else "Unknown network error")⟩) ∧
    (∀ d, decodeOutcome decode parseJson (.otherError d) = ⟨none, none, some d⟩) ∧
    call.outcome.output.isSome = call.outcome.error.isNone ∧
    (∀ c body, openRes = .httpError c body ∨ openRes = .success c body →
      call.outcome.status = some c) := by
  subst hcall
  refine ⟨by simp [http, hbase], by simp [http, hbase], by simp [decodeOutcome],
    by simp [decodeOutcome], by simp [decodeOutcome], ?_, ?_⟩
  · cases openRes with
    | httpError c body => simp [http, hbase, decodeOutcome]
    | urlError r => simp [http, hbase, decodeOutcome]
    | otherError d => simp [http, hbase, decodeOutcome]
    | success c body =>
      cases decode with
      | json =>
        cases hp : parseJson body <;> simp [http, hbase, decodeOutcome, hp]
      | text => simp [http, hbase, decodeOutcome]
      | bytes => simp [http, hbase, decodeOutcome]
  · intro c body h
    rcases h with h | h <;> subst h
    · simp [http, hbase, decodeOutcome]
    · cases decode with
      | json =>
        cases hp : parseJson body <;> simp [http, hbase, decodeOutcome, hp]
      | text => simp [http, hbase, decodeOutcome]
      | bytes => simp [http, hbase, decodeOutcome]

/-- C7 witness: an HTTP 500 with body "bad" comes back as
`(None, 500, "bad")`. -/
theorem http_error_taxonomy_witness :
    (http ⟨1, some "http://x", false, none, none, none, none, none, none⟩ 0 id
        "GET" none [] none [] .noAuth .json .json (.fetched none)
        (.httpError 500 "bad") Except.ok).outcome
      = decodeOutcome .json Except.ok (.httpError 500 "bad") :=
  (http_error_taxonomy ⟨1, some "http://x", false, none, none, none, none, none, none⟩
    0 id "GET" none [] none [] .noAuth .json .json (.fetched none)
    (.httpError 500 "bad") Except.ok _ (by decide) rfl).1

/-! ## Claims about token auth -/

/-- C2: for an `http()` call with `auth = "Token"` (and a configured base
URL, so that a request is actually sent): when a cached token exists and its
expiry date is strictly after the current request time, no refresh occurs
and the cached token is attached; when the token is absent or its expiry
date is at or before the current request time, exactly one refresh call is
made and the request is still sent. -/
theorem token_refresh_policy (cfg : ServiceConfig) (now : Nat) (b64 : String → String)
    (method : String) (path : Option String) (args : List (String × String))
    (data : Option String) (headers : List (String × String))
    (encode decode : ContentMode) (fetch : FetchResult) (openRes : OpenResult)
    (parseJson : String → Except String String) (call : HttpCall)
    (hbase : optStrTruthy cfg.base_url = true)
    (hcall : call = http cfg now b64 method path args data headers .token encode
        decode fetch openRes parseJson) :
    (∀ tok d, cfg.access_token = some tok → tok ≠ "" →
      cfg.token_expiry_date = some d → now < d →
      call.opener = some ⟨headers ++ [("Authorization", tokenTypeStr cfg ++ " " ++ tok)],
        0, cfg.use_proxy && optStrTruthy cfg.proxy,
        optStrTruthy cfg.username && optStrTruthy cfg.password⟩) ∧
    ((optStrTruthy cfg.access_token = false ∨
        (∃ d, cfg.token_expiry_date = some d ∧ d ≤ now)) →
      ∃ oc, call.opener = some oc ∧ oc.refreshCalls = 1 ∧ call.netCalls = 1) := by
  subst hcall
  constructor
  · intro tok d htok hne hexp hlt
    have httok : optStrTruthy (some tok) = true := by
      simp [optStrTruthy, Bool.eq_false_iff, ne_eq, String.isEmpty_iff, hne]
    have hdle : decide (d ≤ now) = false := decide_eq_false (Nat.not_le.mpr hlt)
    have hnr : needRefresh cfg now = false := by
      simp [needRefresh, htok, httok, hexp, hdle]
    have hb : (AuthMode.token != AuthMode.noAuth) = true := rfl
    simp [http, hbase, http_opener, tokenAfterRefresh, hnr, htok, httok, hb]
  · intro h
    have hnr : needRefresh cfg now = true := by
      rcases h with h | ⟨d, hexp, hle⟩
      · simp [needRefresh, h]
      · simp [needRefresh, hexp, hle]
    exact ⟨http_opener cfg now b64 headers .token fetch,
      by simp [http, hbase],
      by simp [http_opener, tokenAfterRefresh, hnr],
      by simp [http, hbase]⟩

/-- C2 witness: an expired token (expiry 50, now 100) triggers exactly one
refresh on a token-auth request that is then sent. -/
theorem token_refresh_policy_witness :
    ∃ oc,
      (http ⟨1, some "http://x", false, none, none, none, none, some "T1", some 50⟩
        100 id "GET" none [] none [] .token .json .json (.fetched (some "T2"))
        (.success 200 "ok") Except.ok).opener = some oc ∧
      oc.refreshCalls = 1 ∧
      (http ⟨1, some "http://x", false, none, none, none, none, some "T1", some 50⟩
        100 id "GET" none [] none [] .token .json .json (.fetched (some "T2"))
        (.success 200 "ok") Except.ok).netCalls = 1 :=
  (token_refresh_policy
    ⟨1, some "http://x", false, none, none, none, none, some "T1", some 50⟩
    100 id "GET" none [] none [] .json .json (.fetched (some "T2"))
    (.success 200 "ok") Except.ok _ (by decide) rfl).2
    (Or.inr ⟨50, rfl, by decide⟩)

/-- C10: for an `http()` call with `auth = "Token"` where a (truthy) cached
token is present but no expiry date is stored, no refresh is attempted and
the cached token is attached to the Authorization header: an expiry-less
token is treated as valid indefinitely. -/
theorem token_no_expiry_no_refresh (cfg : ServiceConfig) (now : Nat)
    (b64 : String → String) (method : String) (path : Option String)
    (args : List (String × String)) (data : Option String)
    (headers : List (String × String)) (encode decode : ContentMode)
    (fetch : FetchResult) (openRes : OpenResult)
    (parseJson : String → Except String String) (call : HttpCall) (tok : String)
    (hbase : optStrTruthy cfg.base_url = true)
    (htok : cfg.access_token = some tok) (hne : tok ≠ "")
    (hexp : cfg.token_expiry_date = none)
    (hcall : call = http cfg now b64 method path args data headers .token encode
        decode fetch openRes parseJson) :
    call.opener = some ⟨headers ++ [("Authorization", tokenTypeStr cfg ++ " " ++ tok)],
      0, cfg.use_proxy && optStrTruthy cfg.proxy,
      optStrTruthy cfg.username && optStrTruthy cfg.password⟩ := by
  subst hcall
  have httok : optStrTruthy (some tok) = true := by
    simp [optStrTruthy, Bool.eq_false_iff, ne_eq, String.isEmpty_iff, hne]
  have hnr : needRefresh cfg now = false := by
    simp [needRefresh, htok, httok, hexp]
  have hb : (AuthMode.token != AuthMode.noAuth) = true := rfl
  simp [http, hbase, http_opener, tokenAfterRefresh, hnr, htok, httok, hb]

/-- C10 witness: cached token "T1" with no expiry date is reused without a
refresh. -/
theorem token_no_expiry_no_refresh_witness :
    (http ⟨1, some "http://x", false, none, none, none, none, some "T1", none⟩
      100 id "GET" none [] none [] .token .json .json (.fetched (some "T2"))
      (.success 200 "ok") Except.ok).opener
      = some ⟨[("Authorization", "Bearer T1")], 0, false, false⟩ :=
  token_no_expiry_no_refresh
    ⟨1, some "http://x", false, none, none, none, none, some "T1", none⟩
    100 id "GET" none [] none [] .json .json (.fetched (some "T2"))
    (.success 200 "ok") Except.ok _ "T1" (by decide) rfl (by decide) rfl rfl

/-- C3: for an `http()` call with `auth = "Token"` that triggers a refresh,
if `get_access_token()` is unimplemented or fails (returns no token), the
request is still attempted (one network call, returning the plain
`decodeOutcome` value of the request — no unhandled fault) with no
Authorization header attached. -/
theorem token_refresh_failure_degrades (cfg : ServiceConfig) (now : Nat)
    (b64 : String → String) (method : String) (path : Option String)
    (args : List (String × String)) (data : Option String)
    (headers : List (String × String)) (encode decode : ContentMode)
    (fetch : FetchResult) (openRes : OpenResult)
    (parseJson : String → Except String String) (call : HttpCall)
    (hbase : optStrTruthy cfg.base_url = true)
    (hneed : optStrTruthy cfg.access_token = false ∨
      (∃ d, cfg.token_expiry_date = some d ∧ d ≤ now))
    (hfail : fetch = .notImplemented ∨ fetch = .fetched none)
    (hcall : call = http cfg now b64 method path args data headers .token encode
        decode fetch openRes parseJson) :
    call.opener = some ⟨headers, 1, cfg.use_proxy && optStrTruthy cfg.proxy,
      optStrTruthy cfg.username && optStrTruthy cfg.password⟩ ∧
    call.netCalls = 1 ∧
    call.outcome = decodeOutcome decode parseJson openRes := by
  subst hcall
  have hnr : needRefresh cfg now = true := by
    rcases hneed with h | ⟨d, hexp, hle⟩
    · simp [needRefresh, h]
    · simp [needRefresh, hexp, hle]
  refine ⟨?_, by simp [http, hbase], by simp [http, hbase]⟩
  have hb : (AuthMode.token != AuthMode.noAuth) = true := rfl
  have h0 : optStrTruthy (none : Option String) = false := rfl
  rcases hfail with h | h <;> subst h <;>
    simp [http, hbase, http_opener, tokenAfterRefresh, hnr, hb, h0]

/-- C3 witness: no cached token and an unimplemented `get_access_token`
still sends the request unauthenticated and returns the provider's 401 as a
value. -/
theorem token_refresh_failure_degrades_witness :
    (http ⟨1, some "http://x", false, none, none, none, none, none, none⟩ 100 id
      "GET" none [] none [] .token .json .json .notImplemented
      (.httpError 401 "unauthorized") Except.ok).opener
      = some ⟨[], 1, false, false⟩ ∧
    (http ⟨1, some "http://x", false, none, none, none, none, none, none⟩ 100 id
      "GET" none [] none [] .token .json .json .notImplemented
      (.httpError 401 "unauthorized") Except.ok).netCalls = 1 ∧
    (http ⟨1, some "http://x", false, none, none, none, none, none, none⟩ 100 id
      "GET" none [] none [] .token .json .json .notImplemented
      (.httpError 401 "unauthorized") Except.ok).outcome
      = decodeOutcome .json Except.ok (.httpError 401 "unauthorized") :=
  token_refresh_failure_degrades
    ⟨1, some "http://x", false, none, none, none, none, none, none⟩
    100 id "GET" none [] none [] .json .json .notImplemented
    (.httpError 401 "unauthorized") Except.ok _ (by decide) (Or.inl rfl)
    (Or.inl rfl) rfl
